import Mathlib

/-!
Verification of the `SimpleQubit` repository (src/SimpleQubit.py) against its
natural-language specification.

The Python class `SimpleQubit` is embedded shallowly:

* the nine numeric constructor parameters become a Lean structure with `ℚ`
  fields (Python floats/ints are exact rationals; the program performs no
  irrational arithmetic on them);
* the gdspy objects used by the program (`Rectangle`, `Round`, `Cell`,
  `CellReference`, `GdsLibrary`) become inductive values.  A `CellReference`
  in gdspy holds a pointer to the referenced cell; here the reference carries
  the referenced cell value inline, which matches the snapshot semantics of
  the immutable values the program builds (the referenced cell
  `WIRE_CONNECTION` holds only polygon primitives);
* the mutable fields `self.layout` / `self.gds_library` become a state record
  `QubitState`, and each method that touches them becomes a state-passing
  function;
* JSON documents become an inductive `Json` value; `json.dumps` followed by
  `json.loads` is modelled as the identity on that value (Python guarantees
  an exact round trip for finite floats and ints), while a *failing*
  `json.loads` and a failing `open` are modelled as parameters returning
  `Except` errors;
* Python exceptions become `Except PyError`; a method returning `None` on a
  handled failure returns `Except.ok none`.
-/

/-- Python exception kinds that the deserialization paths of the program can
produce. -/
inductive PyError : Type where
  /-- json.JSONDecodeError raised by json.loads on malformed input. -/
  | jsonDecodeError : PyError
  /-- TypeError raised by a keyword-argument call that does not match the
  constructor signature. -/
  | typeError : PyError
  /-- NameError / UnboundLocalError raised by referencing an unassigned local
  variable. -/
  | nameError : PyError
  /-- OSError (for example FileNotFoundError) raised by open(). -/
  | oSError : PyError
deriving DecidableEq

/-- JSON values.  Numbers are `ℚ` (every Python int and finite float is an
exact rational); arrays are not needed by any document this development
manipulates and are omitted. -/
inductive Json : Type where
  | num : ℚ → Json
  | str : String → Json
  | bool : Bool → Json
  | null : Json
  | obj : List (String × Json) → Json

/-- Geometric primitives of gdspy used by the program.  `gdspy.Rectangle`
is stored by its two defining corners (its region is the axis-aligned box
they span); `gdspy.Round` is an ideal circle given by center and radius
(gdspy approximates it by a polygon; the ideal circle is the intended
region).  Each primitive carries its layer tag. -/
inductive Prim : Type where
  | rect : ℚ × ℚ → ℚ × ℚ → ℚ → Prim
  | circle : ℚ × ℚ → ℚ → ℚ → Prim
deriving DecidableEq

/-- Layer tag of a primitive. -/
def Prim.layerOf : Prim → ℚ
  | .rect _ _ l => l
  | .circle _ _ l => l

/-- A referenced cell as seen through a gdspy `CellReference`: its name and
its polygon content.  The only referenced cell this program builds
(`WIRE_CONNECTION`) contains polygons only, so one level of indirection is
enough. -/
structure PCell : Type where
  name : String
  polys : List Prim
deriving DecidableEq

/-- An element of a gdspy cell: either a polygon primitive or a
`CellReference` with an origin translation and a rotation in degrees
(rotation about the placement origin, applied before the translation,
exactly as gdspy does). -/
inductive Element : Type where
  | poly : Prim → Element
  | ref : PCell → ℚ × ℚ → ℚ → Element
deriving DecidableEq

/-- A gdspy `Cell`: a named container of elements. -/
structure Cell : Type where
  name : String
  elements : List Element
deriving DecidableEq

/-- A gdspy `GdsLibrary`: the list of cells created in it, in creation
order. -/
structure GdsLibrary : Type where
  cells : List Cell
deriving DecidableEq

/-- The nine numeric parameters of the Python class `SimpleQubit`, in the
order of its constructor signature. -/
structure SimpleQubit : Type where
  connection_radius : ℚ
  junction_width : ℚ
  junction_height : ℚ
  junction_offset : ℚ
  wire_width : ℚ
  wire_height : ℚ
  wire_layer : ℚ
  junction_layer : ℚ
  connection_layer : ℚ
deriving DecidableEq

/-- The mutable state of a `SimpleQubit` instance: the descriptor fields
plus the two cache attributes `self.layout` and `self.gds_library`. -/
structure QubitState : Type where
  q : SimpleQubit
  layout : Option Cell
  gds_library : Option GdsLibrary
deriving DecidableEq

/-- State immediately after `SimpleQubit.__init__`: the nine fields are
stored and both cache attributes are `None`. -/
def initState (q : SimpleQubit) : QubitState := ⟨q, none, none⟩

/-- Cosine of an angle given in degrees, exact on the multiples of 90 that
are the only rotations this program uses (gdspy `CellReference` defaults to
rotation 0 and the program passes 180). -/
def cosDeg (d : ℚ) : ℚ :=
  if d = 0 then 1 else if d = 180 then -1 else 0

/-- Sine of an angle given in degrees, exact on the multiples of 90 that are
the only rotations this program uses. -/
def sinDeg (d : ℚ) : ℚ :=
  if d = 90 then 1 else if d = 270 then -1 else 0

/-- Rotation of a point about the origin by `rot` degrees. -/
def rotPoint (rot : ℚ) (p : ℚ × ℚ) : ℚ × ℚ :=
  (p.1 * cosDeg rot - p.2 * sinDeg rot, p.1 * sinDeg rot + p.2 * cosDeg rot)

/-- Translation of a point. -/
def addPoint (o p : ℚ × ℚ) : ℚ × ℚ := (o.1 + p.1, o.2 + p.2)

/-- The transform a gdspy `CellReference` with origin `o` and rotation `rot`
applies to the primitives of the referenced cell: rotate about the placement
origin, then translate.  Rotating an axis-aligned rectangle by a multiple of
90 degrees maps its two defining corners to two opposite corners of the
image rectangle, so the corner-pair representation is preserved exactly. -/
def transformPrim (o : ℚ × ℚ) (rot : ℚ) : Prim → Prim
  | .rect p1 p2 l => .rect (addPoint o (rotPoint rot p1)) (addPoint o (rotPoint rot p2)) l
  | .circle c r l => .circle (addPoint o (rotPoint rot c)) r l

/-- Flattened polygon content of a cell, as produced by gdspy
`Cell.get_polygonsets`: polygons of the cell itself plus the transformed
polygons of every referenced cell. -/
def flattenCell (c : Cell) : List Prim :=
  c.elements.flatMap fun e =>
    match e with
    | .poly p => [p]
    | .ref t o rot => t.polys.map (transformPrim o rot)

/-- The wire rectangle `w` built by `draw`: `gdspy.Rectangle((0, 0),
(wire_width, wire_height), layer=wire_layer)`. -/
def wireRect (q : SimpleQubit) : Prim :=
  .rect (0, 0) (q.wire_width, q.wire_height) q.wire_layer

/-- The connection circle `c` built by `draw`: `gdspy.Round((0, wire_height),
connection_radius, layer=connection_layer)`. -/
def connectionRound (q : SimpleQubit) : Prim :=
  .circle (0, q.wire_height) q.connection_radius q.connection_layer

/-- The cell `WIRE_CONNECTION` after `repeated_component.add([c, w])`. -/
def repeatedComponent (q : SimpleQubit) : PCell :=
  ⟨"WIRE_CONNECTION", [connectionRound q, wireRect q]⟩

/-- The junction rectangle `j` built by `draw`. -/
def junctionRect (q : SimpleQubit) : Prim :=
  .rect (0, 0) (q.junction_width, q.junction_height) q.junction_layer

/-- The cell `CIRCUIT` after `layout.add([j, wc1, wc2])`: the junction
rectangle plus the two placements of the repeated component, at
`(0 + junction_offset, junction_height)` with default rotation 0 and at
`(junction_width - junction_offset, 0)` with rotation 180. -/
def circuitCell (q : SimpleQubit) : Cell :=
  ⟨"CIRCUIT",
   [.poly (junctionRect q),
    .ref (repeatedComponent q) (0 + q.junction_offset, q.junction_height) 0,
    .ref (repeatedComponent q) (q.junction_width - q.junction_offset, 0) 180]⟩

/-- The cell `WIRE_CONNECTION` as it sits in the library. -/
def wireConnectionCell (q : SimpleQubit) : Cell :=
  ⟨"WIRE_CONNECTION", [.poly (connectionRound q), .poly (wireRect q)]⟩

/-- The `GdsLibrary` built by `draw`, with its cells in creation order
(`CIRCUIT` first, `WIRE_CONNECTION` second). -/
def gdsLibraryOf (q : SimpleQubit) : GdsLibrary :=
  ⟨[circuitCell q, wireConnectionCell q]⟩

/-- The method `SimpleQubit.draw`: allocate a fresh library and cells from
the descriptor fields, overwrite both cache attributes, and return the
`CIRCUIT` cell. -/
def draw (s : QubitState) : QubitState × Cell :=
  (⟨s.q, some (circuitCell s.q), some (gdsLibraryOf s.q)⟩, circuitCell s.q)

/-- The method `SimpleQubit.to_gds`: draw first when `self.gds_library` is
`None`, then write the whole library.  The second component is the library
handed to `write_gds`. -/
def to_gds (s : QubitState) : QubitState × Option GdsLibrary :=
  let t := if s.gds_library.isNone then (draw s).1 else s
  (t, t.gds_library)

/-- The method `SimpleQubit.to_svg`: draw first when `self.layout` is
`None`, then write the layout cell.  The second component is the cell handed
to `write_svg`. -/
def to_svg (s : QubitState) : QubitState × Option Cell :=
  let t := if s.layout.isNone then (draw s).1 else s
  (t, t.layout)

/-- The method `SimpleQubit.get_polygonsets`: draw first when `self.layout`
is `None`, then return the flattened polygon content of the layout cell. -/
def get_polygonsets (s : QubitState) : QubitState × List Prim :=
  let t := if s.layout.isNone then (draw s).1 else s
  (t, match t.layout with
      | some c => flattenCell c
      | none => [])

/-- The serializer `SimpleQubit.to_json`: the nested Python dict handed to
`json.dumps`, with keys in the exact order the source builds them.  The
string rendering step is modelled as the identity on this value, because
Python renders ints and finite floats exactly and `json.loads` recovers
them exactly. -/
def to_json (q : SimpleQubit) : Json :=
  .obj
    [("junction",
      .obj [("junction_width", .num q.junction_width),
            ("junction_height", .num q.junction_height),
            ("junction_offset", .num q.junction_offset)]),
     ("wire",
      .obj [("wire_width", .num q.wire_width),
            ("wire_height", .num q.wire_height)]),
     ("connection", .obj [("connection_radius", .num q.connection_radius)]),
     ("layers",
      .obj [("junction_layer", .num q.junction_layer),
            ("wire_layer", .num q.wire_layer),
            ("connection_layer", .num q.connection_layer)])]

/-- Key lookup in a JSON object (`none` on a non-object). -/
def getKey (j : Json) (k : String) : Option Json :=
  match j with
  | .obj kvs => kvs.lookup k
  | _ => none

/-- Test for the JSON type tag "object". -/
def isObj : Json → Bool
  | .obj _ => true
  | _ => false

/-- Test for the JSON type tag "number". -/
def isNum : Json → Bool
  | .num _ => true
  | _ => false

/-- The four sub-objects of `SimpleQubit.get_json_schema` with their
required keys, exactly as listed in the source schema. -/
def schemaGroups : List (String × List String) :=
  [("junction", ["junction_width", "junction_height", "junction_offset"]),
   ("wire", ["wire_width", "wire_height"]),
   ("connection", ["connection_radius"]),
   ("layers", ["junction_layer", "connection_layer", "wire_layer"])]

/-- The check `jsonschema.validate(instance=data, schema=get_json_schema())`
performs for the fixed schema of the source: the instance is an object, each
of the four group keys is present and maps to an object, and inside each
group every required key is present and maps to a JSON number.  Properties
not listed in the schema are not constrained (the schema sets no
additionalProperties), and numeric ranges are not constrained. -/
def validate_schema (data : Json) : Bool :=
  isObj data &&
    schemaGroups.all fun g =>
      match getKey data g.1 with
      | some gv =>
          isObj gv &&
            g.2.all fun k =>
              match getKey gv k with
              | some v => isNum v
              | none => false
      | none => false

/-- Key-value pairs of the sub-object `data[g]`, in document order.  The
empty-list default is unreachable after successful validation. -/
def groupKvs (data : Json) (g : String) : List (String × Json) :=
  match getKey data g with
  | some (.obj kvs) => kvs
  | _ => []

/-- Keys of the sub-object `data[g]`, in document order. -/
def groupKeys (data : Json) (g : String) : List String :=
  (groupKvs data g).map Prod.fst

/-- The merged keyword arguments of the call
`cls(**data["junction"], **data["wire"], **data["connection"],
**data["layers"])`, in unpacking order. -/
def mergedKwargs (data : Json) : List (String × Json) :=
  groupKvs data "junction" ++ groupKvs data "wire" ++
    groupKvs data "connection" ++ groupKvs data "layers"

/-- The nine parameter names of the constructor signature, in order. -/
def ctorParams : List String :=
  ["connection_radius", "junction_width", "junction_height",
   "junction_offset", "wire_width", "wire_height", "wire_layer",
   "junction_layer", "connection_layer"]

/-- Numeric value bound to key `k` in a keyword-argument list.  The default
0 is unreachable on the paths that use it: validation has already forced the
nine required keys to be numbers. -/
def getNum (kvs : List (String × Json)) (k : String) : ℚ :=
  match kvs.lookup k with
  | some (.num x) => x
  | _ => 0

/-- The classmethod `SimpleQubit.from_json` after `json.loads` has already
produced the document value `data`.  First `jsonschema.validate` runs inside
`try`: a validation failure is caught, printed, and `None` is returned
(`Except.ok none`).  On success the source calls the constructor with the
keyword arguments of all four sub-objects.  That Python call binds exactly
the nine declared parameters: it raises `TypeError` — uncaught, since the
`try` block only covers `validate` — whenever the merged keyword names
repeat (got multiple values), include a name outside the signature
(unexpected keyword), or miss a parameter; otherwise it constructs the
instance. -/
def from_json_data (data : Json) : Except PyError (Option SimpleQubit) :=
  if validate_schema data then
    let m := mergedKwargs data
    let ks := m.map Prod.fst
    if ks.Nodup ∧ ks.toFinset = ctorParams.toFinset then
      .ok (some
        { connection_radius := getNum m "connection_radius"
          junction_width := getNum m "junction_width"
          junction_height := getNum m "junction_height"
          junction_offset := getNum m "junction_offset"
          wire_width := getNum m "wire_width"
          wire_height := getNum m "wire_height"
          wire_layer := getNum m "wire_layer"
          junction_layer := getNum m "junction_layer"
          connection_layer := getNum m "connection_layer" })
    else .error .typeError
  else .ok none

/-- The classmethod `SimpleQubit.from_json` on a string, with the behaviour
of `json.loads` supplied as a parameter.  `json.loads` runs before — and
outside — the `try` block of the source, so a parse failure propagates to
the caller. -/
def from_json (loads : String → Except PyError Json) (json_string : String) :
    Except PyError (Option SimpleQubit) :=
  match loads json_string with
  | .error e => .error e
  | .ok data => from_json_data data

/-- The classmethod `SimpleQubit.from_json_file`, with the behaviour of
`open` plus `read` supplied as a parameter `readFile`.  The source wraps the
whole body in `try ... except Exception`, and the handler prints an f-string
that mentions the local variable `json_file`.  When `open` itself failed
that local was never assigned, so the print raises
NameError/UnboundLocalError, which propagates; when the failure happened
after `open` succeeded (for example `from_json` raising on malformed file
content), the handler prints and returns `None`. -/
def from_json_file (readFile : String → Except PyError String)
    (loads : String → Except PyError Json) (filename : String) :
    Except PyError (Option SimpleQubit) :=
  match readFile filename with
  | .error _ => .error .nameError
  | .ok json_string =>
      match from_json loads json_string with
      | .error _ => .ok none
      | .ok r => .ok r

/-- The public operations whose effect on the geometry cache the
specification describes.  `to_json` reads only the nine numeric fields and
leaves the cache untouched. -/
inductive QubitOp : Type where
  | opDraw : QubitOp
  | opToGds : QubitOp
  | opToSvg : QubitOp
  | opGetPolygonsets : QubitOp
  | opToJson : QubitOp

/-- State transition of one public operation. -/
def stepOp (s : QubitState) : QubitOp → QubitState
  | .opDraw => (draw s).1
  | .opToGds => (to_gds s).1
  | .opToSvg => (to_svg s).1
  | .opGetPolygonsets => (get_polygonsets s).1
  | .opToJson => s

/-- Cache consistency: the two cache attributes are both absent or both
populated, and a populated layout cell is the cell named CIRCUIT belonging
to the populated library. -/
def cacheInv (s : QubitState) : Prop :=
  (s.layout = none ∧ s.gds_library = none) ∨
    (∃ c L, s.layout = some c ∧ s.gds_library = some L ∧
      c.name = "CIRCUIT" ∧ c ∈ L.cells)

/-- Points of the plane carrying the Euclidean metric, used to interpret the
drawn primitives as regions. -/
abbrev Pt2 : Type := EuclideanSpace ℝ (Fin 2)

/-- The point with the given coordinates. -/
def mkPt (x y : ℝ) : Pt2 := fun i => if i = 0 then x else y

/-- Closed axis-aligned box. -/
def box (a b c d : ℝ) : Set Pt2 :=
  {p | a ≤ p 0 ∧ p 0 ≤ b ∧ c ≤ p 1 ∧ p 1 ≤ d}

/-- The closed region of the plane a primitive covers: the axis-aligned box
spanned by the two corners of a rectangle, the closed disk of a circle. -/
def primRegion : Prim → Set Pt2
  | .rect p1 p2 _ =>
      box (min (p1.1 : ℝ) (p2.1 : ℝ)) (max (p1.1 : ℝ) (p2.1 : ℝ))
        (min (p1.2 : ℝ) (p2.2 : ℝ)) (max (p1.2 : ℝ) (p2.2 : ℝ))
  | .circle c r _ => Metric.closedBall (mkPt (c.1 : ℝ) (c.2 : ℝ)) (r : ℝ)

/-- The union of the regions of a list of primitives: the boolean OR of the
drawn shapes. -/
def primsRegion (ps : List Prim) : Set Pt2 :=
  ps.foldr (fun p s => primRegion p ∪ s) ∅

/-- The descriptor of the concrete scenario in the source test suite:
junction 2.0 by 0.4, wire 0.3 by 10.0, connection radius 4.0, offset 0.2,
layers wire 1, junction 2, connection 0. -/
def exampleQubit : SimpleQubit :=
  { connection_radius := 4
    junction_width := 2
    junction_height := 2/5
    junction_offset := 1/5
    wire_width := 3/10
    wire_height := 10
    wire_layer := 1
    junction_layer := 2
    connection_layer := 0 }


/-- Computation of the flattened polygon content of the drawn CIRCUIT cell:
the junction rectangle plus, for each of the two placements, the translated
(and for the second placement 180-degree rotated) circle and wire
rectangle. -/
theorem flattenCircuit (q : SimpleQubit) :
    flattenCell (circuitCell q) =
      [Prim.rect (0, 0) (q.junction_width, q.junction_height) q.junction_layer,
       Prim.circle (q.junction_offset, q.junction_height + q.wire_height)
         q.connection_radius q.connection_layer,
       Prim.rect (q.junction_offset, q.junction_height)
         (q.junction_offset + q.wire_width, q.junction_height + q.wire_height)
         q.wire_layer,
       Prim.circle (q.junction_width - q.junction_offset, -q.wire_height)
         q.connection_radius q.connection_layer,
       Prim.rect (q.junction_width - q.junction_offset, 0)
         (q.junction_width - q.junction_offset - q.wire_width, -q.wire_height)
         q.wire_layer] := by
  simp only [flattenCell, circuitCell, repeatedComponent, connectionRound,
    wireRect, junctionRect, transformPrim, rotPoint, addPoint, cosDeg, sinDeg,
    List.flatMap_cons, List.flatMap_nil, List.map_cons, List.map_nil,
    List.append_nil, List.cons_append, List.nil_append]
  norm_num
  ring

/-- First coordinate of `mkPt`. -/
theorem mkPt_zero (x y : ℝ) : mkPt x y 0 = x := rfl

/-- Second coordinate of `mkPt`. -/
theorem mkPt_one (x y : ℝ) : mkPt x y 1 = y := rfl

/-- Membership in a box, coordinatewise. -/
theorem mem_box {a b c d x y : ℝ} :
    mkPt x y ∈ box a b c d ↔ a ≤ x ∧ x ≤ b ∧ c ≤ y ∧ y ≤ d := by
  simp [box, mkPt_zero, mkPt_one]

/-- Boxes are convex. -/
theorem convex_box (a b c d : ℝ) : Convex ℝ (box a b c d) := by
  intro x hx y hy s t hs ht hst
  obtain ⟨hx1, hx2, hx3, hx4⟩ := hx
  obtain ⟨hy1, hy2, hy3, hy4⟩ := hy
  have key : ∀ u v w : ℝ, u ≤ v → u ≤ w → u ≤ s * v + t * w := by
    intro u v w huv huw
    have h1 : s * u ≤ s * v := mul_le_mul_of_nonneg_left huv hs
    have h2 : t * u ≤ t * w := mul_le_mul_of_nonneg_left huw ht
    have h3 : s * u + t * u = u := by rw [← add_mul, hst, one_mul]
    linarith
  have key2 : ∀ u v w : ℝ, v ≤ u → w ≤ u → s * v + t * w ≤ u := by
    intro u v w huv huw
    have h1 : s * v ≤ s * u := mul_le_mul_of_nonneg_left huv hs
    have h2 : t * w ≤ t * u := mul_le_mul_of_nonneg_left huw ht
    have h3 : s * u + t * u = u := by rw [← add_mul, hst, one_mul]
    linarith
  refine ⟨?_, ?_, ?_, ?_⟩ <;>
      simp only [PiLp.add_apply, PiLp.smul_apply, smul_eq_mul]
  · exact key a (x 0) (y 0) hx1 hy1
  · exact key2 b (x 0) (y 0) hx2 hy2
  · exact key c (x 1) (y 1) hx3 hy3
  · exact key2 d (x 1) (y 1) hx4 hy4

/-- Nonempty boxes. -/
theorem box_nonempty {a b c d : ℝ} (hab : a ≤ b) (hcd : c ≤ d) :
    (box a b c d).Nonempty :=
  ⟨mkPt a c, mem_box.2 ⟨le_rfl, hab, le_rfl, hcd⟩⟩

/-- A box with ordered sides is connected. -/
theorem isConnected_box {a b c d : ℝ} (hab : a ≤ b) (hcd : c ≤ d) :
    IsConnected (box a b c d) :=
  (convex_box a b c d).isConnected (box_nonempty hab hcd)

/-- The state immediately after construction satisfies cache
consistency. -/
theorem cacheInv_init (q : SimpleQubit) : cacheInv (initState q) :=
  Or.inl ⟨rfl, rfl⟩

/-- The state draw leaves behind satisfies cache consistency. -/
theorem cacheInv_draw (s : QubitState) : cacheInv (draw s).1 :=
  Or.inr ⟨circuitCell s.q, gdsLibraryOf s.q, rfl, rfl, rfl,
    by simp [gdsLibraryOf]⟩

/-- Every public operation preserves cache consistency. -/
theorem cacheInv_step (s : QubitState) (op : QubitOp) (h : cacheInv s) :
    cacheInv (stepOp s op) := by
  cases op with
  | opDraw => exact cacheInv_draw s
  | opToGds =>
      rcases h with ⟨h1, h2⟩ | ⟨c, L, h1, h2, h3, h4⟩
      · have : stepOp s .opToGds = (draw s).1 := by
          simp [stepOp, to_gds, h2]
        rw [this]; exact cacheInv_draw s
      · have : stepOp s .opToGds = s := by
          simp [stepOp, to_gds, h2]
        rw [this]; exact Or.inr ⟨c, L, h1, h2, h3, h4⟩
  | opToSvg =>
      rcases h with ⟨h1, h2⟩ | ⟨c, L, h1, h2, h3, h4⟩
      · have : stepOp s .opToSvg = (draw s).1 := by
          simp [stepOp, to_svg, h1]
        rw [this]; exact cacheInv_draw s
      · have : stepOp s .opToSvg = s := by
          simp [stepOp, to_svg, h1]
        rw [this]; exact Or.inr ⟨c, L, h1, h2, h3, h4⟩
  | opGetPolygonsets =>
      rcases h with ⟨h1, h2⟩ | ⟨c, L, h1, h2, h3, h4⟩
      · have : stepOp s .opGetPolygonsets = (draw s).1 := by
          simp [stepOp, get_polygonsets, h1]
        rw [this]; exact cacheInv_draw s
      · have : stepOp s .opGetPolygonsets = s := by
          simp [stepOp, get_polygonsets, h1]
        rw [this]; exact Or.inr ⟨c, L, h1, h2, h3, h4⟩
  | opToJson => exact h

/-- Cache consistency is preserved by every operation sequence. -/
theorem cacheInv_foldl (ops : List QubitOp) (s : QubitState)
    (h : cacheInv s) : cacheInv (List.foldl stepOp s ops) := by
  induction ops generalizing s with
  | nil => exact h
  | cons op ops ih => exact ih _ (cacheInv_step s op h)

/-- C1: for every descriptor, draw() produces a figure whose flattened
content is exactly the junction rectangle from (0,0) to
(junction_width, junction_height) on junction_layer, plus two instances of
the wire-assembly sub-figure (a wire_width by wire_height rectangle on
wire_layer and a circle of radius connection_radius centered at
(0, wire_height) on connection_layer), one placed translated to
(junction_offset, junction_height) with rotation 0 and one placed
translated to (junction_width - junction_offset, 0) rotated 180 degrees
about its placement origin. -/
theorem c1_draw_flattened_content (s : QubitState) :
    flattenCell (draw s).2 =
      [Prim.rect (0, 0) (s.q.junction_width, s.q.junction_height)
         s.q.junction_layer,
       Prim.circle (s.q.junction_offset, s.q.junction_height + s.q.wire_height)
         s.q.connection_radius s.q.connection_layer,
       Prim.rect (s.q.junction_offset, s.q.junction_height)
         (s.q.junction_offset + s.q.wire_width,
          s.q.junction_height + s.q.wire_height) s.q.wire_layer,
       Prim.circle (s.q.junction_width - s.q.junction_offset, -s.q.wire_height)
         s.q.connection_radius s.q.connection_layer,
       Prim.rect (s.q.junction_width - s.q.junction_offset, 0)
         (s.q.junction_width - s.q.junction_offset - s.q.wire_width,
          -s.q.wire_height) s.q.wire_layer] :=
  flattenCircuit s.q

/-- C4: for every descriptor, the set of distinct layer identifiers of the
flattened drawn figure equals exactly the set of the three configured layer
identifiers. -/
theorem c4_layer_set (s : QubitState) :
    ((flattenCell (draw s).2).map Prim.layerOf).toFinset =
      {s.q.wire_layer, s.q.junction_layer, s.q.connection_layer} := by
  have h : (draw s).2 = circuitCell s.q := rfl
  rw [h, flattenCircuit s.q]
  ext x
  simp [Prim.layerOf]
  tauto

/-- C6: each of to_gds, to_svg and get_polygonsets triggers draw exactly
when the geometry cache is absent, and reuses the cached geometry without
reconstruction when the cache is populated: with an absent cache each
operation leaves the state draw leaves; with a populated cache each
operation leaves the state unchanged and its output comes from the cached
library and layout cell. -/
theorem c6_cache_then_reuse (s : QubitState) :
    (s.layout = none → s.gds_library = none →
      (to_gds s).1 = (draw s).1 ∧ (to_svg s).1 = (draw s).1 ∧
        (get_polygonsets s).1 = (draw s).1) ∧
    (∀ c L, s.layout = some c → s.gds_library = some L →
      (to_gds s).1 = s ∧ (to_svg s).1 = s ∧ (get_polygonsets s).1 = s ∧
        (to_gds s).2 = some L ∧ (to_svg s).2 = some c ∧
        (get_polygonsets s).2 = flattenCell c) := by
  constructor
  · intro h1 h2
    refine ⟨?_, ?_, ?_⟩ <;> simp [to_gds, to_svg, get_polygonsets, h1, h2]
  · intro c L h1 h2
    refine ⟨?_, ?_, ?_, ?_, ?_, ?_⟩ <;>
      simp [to_gds, to_svg, get_polygonsets, h1, h2]

/-- Witness for C6 at the concrete test descriptor: with an empty cache
to_gds draws, and after a draw each operation leaves the state unchanged
and get_polygonsets returns the flattened cached cell. -/
theorem c6_cache_then_reuse_witness :
    (to_gds (initState exampleQubit)).1 = (draw (initState exampleQubit)).1 ∧
    (to_gds (draw (initState exampleQubit)).1).1 =
      (draw (initState exampleQubit)).1 ∧
    (get_polygonsets (draw (initState exampleQubit)).1).2 =
      flattenCell (circuitCell exampleQubit) := by
  refine ⟨?_, ?_, ?_⟩
  · exact ((c6_cache_then_reuse (initState exampleQubit)).1 rfl rfl).1
  · exact ((c6_cache_then_reuse (draw (initState exampleQubit)).1).2
      (circuitCell exampleQubit) (gdsLibraryOf exampleQubit) rfl rfl).1
  · exact ((c6_cache_then_reuse (draw (initState exampleQubit)).1).2
      (circuitCell exampleQubit) (gdsLibraryOf exampleQubit) rfl rfl).2.2.2.2.2

/-- C7: draw never mutates the nine descriptor fields, and each call
installs a fresh layout and library computed from the descriptor alone:
the resulting state replaces both caches and coincides with the state draw
produces from a freshly constructed instance, so nothing accumulates onto
previously cached geometry. -/
theorem c7_draw_preserves_fields (s : QubitState) :
    (draw s).1.q = s.q ∧
    (draw s).1.layout = some (circuitCell s.q) ∧
    (draw s).1.gds_library = some (gdsLibraryOf s.q) ∧
    (draw s).1 = (draw (initState s.q)).1 :=
  ⟨rfl, rfl, rfl, rfl⟩

/-- C10: after construction and after every sequence of public operations,
the two cache attributes are either both absent or both populated, and a
populated layout cell is the CIRCUIT cell belonging to the populated
library. -/
theorem c10_cache_consistency (q : SimpleQubit) (ops : List QubitOp) :
    cacheInv (List.foldl stepOp (initState q) ops) :=
  cacheInv_foldl ops (initState q) (cacheInv_init q)

/-- C2: deserializing the serialization of any descriptor yields a
constructed descriptor (not the absent sentinel) with all nine fields
exactly equal.  The string rendering of json.dumps and the parse of
json.loads compose to the identity on the document value, which is where
this embedding picks the round trip up. -/
theorem c2_round_trip (q : SimpleQubit) :
    from_json_data (to_json q) = .ok (some q) := by
  have hv : validate_schema (to_json q) = true := rfl
  have hkeys : (mergedKwargs (to_json q)).map Prod.fst =
      ["junction_width", "junction_height", "junction_offset", "wire_width",
       "wire_height", "connection_radius", "junction_layer", "wire_layer",
       "connection_layer"] := rfl
  have hcond : ((mergedKwargs (to_json q)).map Prod.fst).Nodup ∧
      ((mergedKwargs (to_json q)).map Prod.fst).toFinset =
        ctorParams.toFinset := by
    rw [hkeys]
    exact ⟨by decide, by decide⟩
  simp only [from_json_data, hv, if_true]
  rw [if_pos hcond]
  rfl

/-- Schema-valid document whose layers carry the non-integer number 3/2 as
junction_layer. -/
def fractionalLayerDoc : Json :=
  .obj
    [("junction",
      .obj [("junction_width", .num 2), ("junction_height", .num (2/5)),
            ("junction_offset", .num (1/5))]),
     ("wire", .obj [("wire_width", .num (3/10)), ("wire_height", .num 10)]),
     ("connection", .obj [("connection_radius", .num 4)]),
     ("layers",
      .obj [("junction_layer", .num (3/2)), ("connection_layer", .num 0),
            ("wire_layer", .num 1)])]

/-- C9: the schema constrains layer identifiers only to JSON numbers, so a
document with junction_layer = 3/2 deserializes successfully into a
descriptor whose junction_layer holds the non-integer value 3/2. -/
theorem c9_fractional_layer :
    from_json_data fractionalLayerDoc =
      .ok (some
        { connection_radius := 4
          junction_width := 2
          junction_height := 2/5
          junction_offset := 1/5
          wire_width := 3/10
          wire_height := 10
          wire_layer := 1
          junction_layer := 3/2
          connection_layer := 0 }) ∧
    ∀ n : ℤ, (3 : ℚ)/2 ≠ (n : ℚ) := by
  refine ⟨rfl, ?_⟩
  intro n h
  have h2 : (3 : ℚ) = (n : ℚ) * 2 := by field_simp at h; exact_mod_cast h
  have h3 : (3 : ℤ) = n * 2 := by exact_mod_cast h2
  omega

/-- Behaviour of json.loads on input that is not JSON: it raises
json.JSONDecodeError. -/
def loadsMalformed : String → Except PyError Json :=
  fun _ => .error .jsonDecodeError

/-- Behaviour of open() plus read() on a missing or unreadable file: it
raises an OSError such as FileNotFoundError. -/
def readMissingFile : String → Except PyError String :=
  fun _ => .error .oSError

/-- C3, evaluated at the failing inputs: a malformed JSON string makes
from_json propagate the json.loads error (json.loads runs outside the try
block), and an unreadable file makes from_json_file propagate a NameError
(its except handler prints an f-string naming the local json_file, which is
unbound when open() failed).  Only the schema-invalid-document kind behaves
as the specification says and returns the None sentinel. -/
theorem c3_failure_paths :
    from_json loadsMalformed "not json" = .error .jsonDecodeError ∧
    from_json_file readMissingFile loadsMalformed "missing.json" =
      .error .nameError ∧
    from_json_data (.obj []) = .ok none :=
  ⟨rfl, rfl, rfl⟩

/-- Schema-valid document that carries one unknown key inside the junction
sub-object in addition to all required keys. -/
def extraSubKeyDoc : Json :=
  .obj
    [("junction",
      .obj [("junction_width", .num 2), ("junction_height", .num (2/5)),
            ("junction_offset", .num (1/5)), ("extra", .num 7)]),
     ("wire", .obj [("wire_width", .num (3/10)), ("wire_height", .num 10)]),
     ("connection", .obj [("connection_radius", .num 4)]),
     ("layers",
      .obj [("junction_layer", .num 2), ("connection_layer", .num 0),
            ("wire_layer", .num 1)])]

/-- Counterexample to C5: this document passes the schema (unknown keys are
not rejected by validation), yet deserialization does not construct a
descriptor — the keyword-argument call raises an uncaught TypeError because
the unknown key inside the sub-object is not a constructor parameter. -/
theorem c5_counterexample :
    validate_schema extraSubKeyDoc = true ∧
    from_json_data extraSubKeyDoc = .error .typeError :=
  ⟨rfl, rfl⟩

/-- C5 as amended: for every schema-valid document whose four sub-objects
carry exactly their required keys (in any order), deserialization
constructs and returns a descriptor; unknown keys at the top level and
out-of-range numeric values such as negative dimensions are not rejected.
Unknown keys inside a sub-object instead abort the constructor call with an
uncaught TypeError. -/
theorem c5_amended_accepts (data : Json)
    (hv : validate_schema data = true)
    (hj : (groupKeys data "junction").Perm
      ["junction_width", "junction_height", "junction_offset"])
    (hw : (groupKeys data "wire").Perm ["wire_width", "wire_height"])
    (hc : (groupKeys data "connection").Perm ["connection_radius"])
    (hl : (groupKeys data "layers").Perm
      ["junction_layer", "connection_layer", "wire_layer"]) :
    ∃ qb, from_json_data data = .ok (some qb) := by
  have hperm : ((mergedKwargs data).map Prod.fst).Perm
      (["junction_width", "junction_height", "junction_offset"] ++
        ["wire_width", "wire_height"] ++ ["connection_radius"] ++
        ["junction_layer", "connection_layer", "wire_layer"]) := by
    simp only [mergedKwargs, List.map_append]
    exact ((hj.append hw).append hc).append hl
  have hnodup : ((mergedKwargs data).map Prod.fst).Nodup :=
    hperm.nodup_iff.2 (by decide)
  have hfin : ((mergedKwargs data).map Prod.fst).toFinset =
      ctorParams.toFinset := by
    rw [List.toFinset_eq_of_perm _ _ hperm]; decide
  refine ⟨{ connection_radius := getNum (mergedKwargs data) "connection_radius"
            junction_width := getNum (mergedKwargs data) "junction_width"
            junction_height := getNum (mergedKwargs data) "junction_height"
            junction_offset := getNum (mergedKwargs data) "junction_offset"
            wire_width := getNum (mergedKwargs data) "wire_width"
            wire_height := getNum (mergedKwargs data) "wire_height"
            wire_layer := getNum (mergedKwargs data) "wire_layer"
            junction_layer := getNum (mergedKwargs data) "junction_layer"
            connection_layer := getNum (mergedKwargs data) "connection_layer" },
    ?_⟩
  simp only [from_json_data, hv, if_true]
  exact if_pos ⟨hnodup, hfin⟩

/-- Document for the C5 witness: schema-valid, with an unknown top-level
key and a negative junction_width, and with the layers sub-object keys in a
different order than the schema lists them. -/
def topLevelExtraDoc : Json :=
  .obj
    [("comment", .str "unknown top-level key"),
     ("junction",
      .obj [("junction_width", .num (-2)), ("junction_height", .num (2/5)),
            ("junction_offset", .num (1/5))]),
     ("wire", .obj [("wire_width", .num (3/10)), ("wire_height", .num 10)]),
     ("connection", .obj [("connection_radius", .num 4)]),
     ("layers",
      .obj [("wire_layer", .num 1), ("junction_layer", .num 2),
            ("connection_layer", .num 0)])]

/-- Witness for the amended C5: the concrete document with a top-level
unknown key and a negative dimension is accepted and constructs a
descriptor. -/
theorem c5_amended_accepts_witness :
    ∃ qb, from_json_data topLevelExtraDoc = .ok (some qb) :=
  c5_amended_accepts topLevelExtraDoc (by decide) (by decide) (by decide)
    (by decide) (by decide)

/-- Connectivity of the union of the five flattened regions, stated over
the reals: junction box, upper connection disk, upper wire box, lower
connection disk, lower wire box, under positive dimensions and
0 < off ≤ jw / 2. -/
theorem connected_union_real (r jw jh off ww wh : ℝ)
    (hr : 0 < r) (hjw : 0 < jw) (hjh : 0 < jh) (hww : 0 < ww)
    (hwh : 0 < wh) (hoff : 0 < off) (hoff2 : off ≤ jw / 2) :
    IsConnected
      (box (min 0 jw) (max 0 jw) (min 0 jh) (max 0 jh) ∪
        (Metric.closedBall (mkPt off (jh + wh)) r ∪
          (box (min off (off + ww)) (max off (off + ww))
              (min jh (jh + wh)) (max jh (jh + wh)) ∪
            (Metric.closedBall (mkPt (jw - off) (-wh)) r ∪
              (box (min (jw - off) (jw - off - ww))
                  (max (jw - off) (jw - off - ww))
                  (min 0 (-wh)) (max 0 (-wh)) ∪ ∅))))) := by
  set R1 := box (min (0 : ℝ) jw) (max 0 jw) (min 0 jh) (max 0 jh) with hR1
  set B1 := Metric.closedBall (mkPt off (jh + wh)) r with hB1
  set R3 := box (min off (off + ww)) (max off (off + ww))
    (min jh (jh + wh)) (max jh (jh + wh)) with hR3
  set B2 := Metric.closedBall (mkPt (jw - off) (-wh)) r with hB2
  set R5 := box (min (jw - off) (jw - off - ww))
    (max (jw - off) (jw - off - ww)) (min (0 : ℝ) (-wh))
    (max (0 : ℝ) (-wh)) with hR5
  have cR1 : IsConnected R1 := isConnected_box min_le_max min_le_max
  have cR3 : IsConnected R3 := isConnected_box min_le_max min_le_max
  have cR5 : IsConnected R5 := isConnected_box min_le_max min_le_max
  have cB1 : IsConnected B1 :=
    (convex_closedBall _ _).isConnected (Metric.nonempty_closedBall.2 hr.le)
  have cB2 : IsConnected B2 :=
    (convex_closedBall _ _).isConnected (Metric.nonempty_closedBall.2 hr.le)
  have hoffjw : off ≤ jw := by linarith
  have hjwoff : (0 : ℝ) ≤ jw - off := by linarith
  have m1 : mkPt off jh ∈ R1 :=
    mem_box.2 ⟨(min_le_left 0 jw).trans hoff.le,
      hoffjw.trans (le_max_right 0 jw), min_le_right 0 jh, le_max_right 0 jh⟩
  have m3 : mkPt off jh ∈ R3 :=
    mem_box.2 ⟨min_le_left _ _, le_max_left _ _, min_le_left _ _,
      le_max_left _ _⟩
  have m3b : mkPt off (jh + wh) ∈ R3 :=
    mem_box.2 ⟨min_le_left _ _, le_max_left _ _, min_le_right _ _,
      le_max_right _ _⟩
  have mB1 : mkPt off (jh + wh) ∈ B1 := Metric.mem_closedBall_self hr.le
  have m1b : mkPt (jw - off) 0 ∈ R1 :=
    mem_box.2 ⟨(min_le_left 0 jw).trans hjwoff,
      (by linarith : jw - off ≤ jw).trans (le_max_right 0 jw),
      min_le_left 0 jh, le_max_left 0 jh⟩
  have m5 : mkPt (jw - off) 0 ∈ R5 :=
    mem_box.2 ⟨min_le_left _ _, le_max_left _ _, min_le_left _ _,
      le_max_left _ _⟩
  have m5b : mkPt (jw - off) (-wh) ∈ R5 :=
    mem_box.2 ⟨min_le_left _ _, le_max_left _ _, min_le_right _ _,
      le_max_right _ _⟩
  have mB2 : mkPt (jw - off) (-wh) ∈ B2 := Metric.mem_closedBall_self hr.le
  have c13 : IsConnected (R1 ∪ R3) :=
    IsConnected.union ⟨mkPt off jh, m1, m3⟩ cR1 cR3
  have c132 : IsConnected ((R1 ∪ R3) ∪ B1) :=
    IsConnected.union ⟨mkPt off (jh + wh), Or.inr m3b, mB1⟩ c13 cB1
  have c1325 : IsConnected (((R1 ∪ R3) ∪ B1) ∪ R5) :=
    IsConnected.union ⟨mkPt (jw - off) 0, Or.inl (Or.inl m1b), m5⟩ c132 cR5
  have cAll : IsConnected ((((R1 ∪ R3) ∪ B1) ∪ R5) ∪ B2) :=
    IsConnected.union ⟨mkPt (jw - off) (-wh), Or.inr m5b, mB2⟩ c1325 cB2
  have hEq : R1 ∪ (B1 ∪ (R3 ∪ (B2 ∪ (R5 ∪ (∅ : Set Pt2))))) =
      (((R1 ∪ R3) ∪ B1) ∪ R5) ∪ B2 := by
    ext p
    simp only [Set.mem_union, Set.mem_empty_iff_false, or_false]
    tauto
  rw [hEq]
  exact cAll

/-- C8: for every descriptor with positive dimensions and
0 < junction_offset ≤ junction_width / 2, the union of the regions of all
primitives of the drawn flattened figure (junction rectangle, two wire
rectangles, two connection circles, with their placement transforms
applied) is one connected region. -/
theorem c8_union_connected (q : SimpleQubit)
    (hr : 0 < q.connection_radius) (hjw : 0 < q.junction_width)
    (hjh : 0 < q.junction_height) (hww : 0 < q.wire_width)
    (hwh : 0 < q.wire_height) (hoff : 0 < q.junction_offset)
    (hoff2 : q.junction_offset ≤ q.junction_width / 2) :
    IsConnected (primsRegion (flattenCell (draw (initState q)).2)) := by
  have h : (draw (initState q)).2 = circuitCell q := rfl
  rw [h, flattenCircuit q]
  simp only [primsRegion, List.foldr_cons, List.foldr_nil, primRegion]
  push_cast
  exact connected_union_real _ _ _ _ _ _ (by exact_mod_cast hr)
    (by exact_mod_cast hjw) (by exact_mod_cast hjh) (by exact_mod_cast hww)
    (by exact_mod_cast hwh) (by exact_mod_cast hoff)
    (by exact_mod_cast hoff2)

/-- Witness for C8 at the concrete test descriptor. -/
theorem c8_union_connected_witness :
    IsConnected
      (primsRegion (flattenCell (draw (initState exampleQubit)).2)) :=
  c8_union_connected exampleQubit (by norm_num [exampleQubit])
    (by norm_num [exampleQubit]) (by norm_num [exampleQubit])
    (by norm_num [exampleQubit]) (by norm_num [exampleQubit])
    (by norm_num [exampleQubit]) (by norm_num [exampleQubit])
